import Mathlib

/-!
Verification of the two-particle molecular dynamics core
(`src/md_simulation.py`): the `Particle` state container, the
Lennard-Jones pair potential, and the `TwoParticleMD` Velocity Verlet
integrator with elastic wall collisions.

Python floats are modelled as real numbers (exact arithmetic); the
special float value `np.inf` returned by the potential at degenerate
distance is modelled by mapping the potential into `EReal`, where it is
`⊤`.  Numpy 2-vectors are modelled by the `Vec2` structure with
componentwise arithmetic.
-/

noncomputable section

/-- A 2D vector, modelling a numpy array of shape (2,). -/
structure Vec2 where
  x : ℝ
  y : ℝ

namespace Vec2

/-- Componentwise addition (numpy `+`). -/
instance : Add Vec2 := ⟨fun v w => ⟨v.x + w.x, v.y + w.y⟩⟩

/-- Componentwise subtraction (numpy `-`). -/
instance : Sub Vec2 := ⟨fun v w => ⟨v.x - w.x, v.y - w.y⟩⟩

/-- Componentwise negation (numpy unary `-`). -/
instance : Neg Vec2 := ⟨fun v => ⟨-v.x, -v.y⟩⟩

/-- Vector-times-scalar broadcasting (numpy `v * c`). -/
instance : HMul Vec2 ℝ Vec2 := ⟨fun v c => ⟨v.x * c, v.y * c⟩⟩

/-- Scalar-times-vector broadcasting (numpy `c * v`). -/
instance : HMul ℝ Vec2 Vec2 := ⟨fun c v => ⟨c * v.x, c * v.y⟩⟩

/-- Vector-by-scalar division broadcasting (numpy `v / c`). -/
instance : HDiv Vec2 ℝ Vec2 := ⟨fun v c => ⟨v.x / c, v.y / c⟩⟩

/-- The zero vector, `np.zeros(2)`. -/
def zero : Vec2 := ⟨0, 0⟩

/-- Dot product, `np.dot(v, w)`. -/
def dot (v w : Vec2) : ℝ := v.x * w.x + v.y * w.y

/-- Euclidean norm, `np.linalg.norm(v)`. -/
def norm (v : Vec2) : ℝ := Real.sqrt (v.x ^ 2 + v.y ^ 2)

end Vec2

/-- State of `Particle.__init__`: position, velocity, mass, force accumulator
and the fixed flag (`src/md_simulation.py`, lines 58-73). -/
structure Particle where
  position : Vec2
  velocity : Vec2
  mass : ℝ
  force : Vec2
  is_fixed : Bool

namespace Particle

/-- Constructor `Particle.__init__(position, velocity, mass, is_fixed)`: stores the
vectors, stores the mass, zeroes the force.  The Python constructor
performs no validation of `mass` and always succeeds. -/
def init (position velocity : Vec2) (mass : ℝ) ( is_fixed : Bool) : Particle :=
  { position := position
    velocity := velocity
    mass := mass
    force := Vec2.zero
    is_fixed := is_fixed }

/-- Property `Particle.kinetic_energy`: 0 for a fixed particle, otherwise
`0.5 * m * np.dot(v, v)`. -/
def kinetic_energy (p : Particle) : ℝ :=
  if p.is_fixed then 0 else 0.5 * p.mass * Vec2.dot p.velocity p.velocity

end Particle

/-- Parameters stored by `LennardJonesPotential.__init__`. -/
structure LennardJonesPotential where
  epsilon : ℝ
  sigma : ℝ

namespace LennardJonesPotential

/-- Method `LennardJonesPotential.potential(r)`: returns `np.inf` (modelled as
`⊤ : EReal`) when `r < 1e-10`, otherwise
`4 * epsilon * (sr6 ** 2 - sr6)` with `sr6 = (sigma / r) ** 6`. -/
def potential (lj : LennardJonesPotential) (r : ℝ) : EReal :=
  if r < 1e-10 then ⊤
  else ((4.0 * lj.epsilon * (((lj.sigma / r) ^ 6) ^ 2 - (lj.sigma / r) ^ 6) : ℝ) : EReal)

/-- Method `LennardJonesPotential.force_magnitude(r)`: returns `0` when
`r < 1e-10`, otherwise `24 * epsilon / r * (2 * sr6 ** 2 - sr6)`. -/
def force_magnitude (lj : LennardJonesPotential) (r : ℝ) : ℝ :=
  if r < 1e-10 then 0
  else 24.0 * lj.epsilon / r * (2.0 * ((lj.sigma / r) ^ 6) ^ 2 - (lj.sigma / r) ^ 6)

/-- Method `LennardJonesPotential.force_vector(r_vector)`: zero vector when the
displacement's magnitude is below `1e-10`, otherwise
`force_magnitude(r) * (r_vector / r)`. -/
def force_vector (lj : LennardJonesPotential) (r_vector : Vec2) : Vec2 :=
  let r := Vec2.norm r_vector
  if r < 1e-10 then Vec2.zero
  else lj.force_magnitude r * (r_vector / r)

end LennardJonesPotential

/-- One entry of the simulation history (`TwoParticleMD._record_state`
appends one value to each of the parallel lists of `self.history`; an
entry here bundles the values appended together in one call). -/
structure Snapshot where
  time : ℝ
  pos1 : Vec2
  pos2 : Vec2
  vel1 : Vec2
  vel2 : Vec2
  kinetic : ℝ
  potentialEnergy : EReal
  total : EReal
  wall_collisions_1 : ℕ
  wall_collisions_2 : ℕ

/-- The state of a `TwoParticleMD` simulation instance. -/
structure TwoParticleMD where
  particle1 : Particle
  particle2 : Particle
  potential : LennardJonesPotential
  dt : ℝ
  time : ℝ
  box_size : ℝ × ℝ
  history : List Snapshot
  wall_collision_count_1 : ℕ
  wall_collision_count_2 : ℕ

namespace TwoParticleMD

/-- Method `TwoParticleMD._calculate_forces`: sets
`particle1.force = potential.force_vector(position1 - position2)` and
`particle2.force` to its negation (Newton's third law). -/
def _calculate_forces (s : TwoParticleMD) : TwoParticleMD :=
  let r_vector := s.particle1.position - s.particle2.position
  let force_on_1 := s.potential.force_vector r_vector
  { s with
    particle1 := { s.particle1 with force := force_on_1 }
    particle2 := { s.particle2 with force := -force_on_1 } }

/-- Constructor `TwoParticleMD.__init__`: stores the particles, potential, box size
and time step, zeroes time, the collision counters and the history, then
immediately computes the initial forces via `_calculate_forces`. -/
def init (particle1 particle2 : Particle) (potential : LennardJonesPotential)
    (box_size : ℝ × ℝ) (dt : ℝ) : TwoParticleMD :=
  TwoParticleMD._calculate_forces
    { particle1 := particle1
      particle2 := particle2
      potential := potential
      dt := dt
      time := 0
      box_size := box_size
      history := []
      wall_collision_count_1 := 0
      wall_collision_count_2 := 0 }

/-- Method `TwoParticleMD._handle_wall_collisions(particle, counter)`: returns
early if the particle is fixed; otherwise checks the x walls
(`pos[0] <= 0` then `elif pos[0] >= width`) and the y walls
(`pos[1] <= 0` then `elif pos[1] >= height`) independently, clamping the
position component and reflecting the velocity component on a hit, and
increments the counter once if any wall was hit. -/
def _handle_wall_collisions (box_size : ℝ × ℝ) (particle : Particle)
    (counter : ℕ) : Particle × ℕ :=
  if particle.is_fixed then (particle, counter)
  else
    let pos := particle.position
    let vel := particle.velocity
    let width := box_size.1
    let height := box_size.2
    let xres : ℝ × ℝ × Bool :=
      if pos.x ≤ 0 then (0, |vel.x|, true)
      else if pos.x ≥ width then (width, -|vel.x|, true)
      else (pos.x, vel.x, false)
    let yres : ℝ × ℝ × Bool :=
      if pos.y ≤ 0 then (0, |vel.y|, true)
      else if pos.y ≥ height then (height, -|vel.y|, true)
      else (pos.y, vel.y, false)
    let collision_occurred := xres.2.2 || yres.2.2
    ({ particle with
        position := ⟨xres.1, yres.1⟩
        velocity := ⟨xres.2.1, yres.2.1⟩ },
     if collision_occurred then counter + 1 else counter)

/-- Method `TwoParticleMD.step`: one Velocity Verlet update — position update
from the stored forces (skipped for fixed particles), wall collision
handling for both particles, force recomputation at the new positions,
velocity update from the averaged accelerations (skipped for fixed
particles), and finally `time += dt`. -/
def step (s : TwoParticleMD) : TwoParticleMD :=
  let old_accel1 := s.particle1.force / s.particle1.mass
  let old_accel2 := s.particle2.force / s.particle2.mass
  let p1 :=
    if s.particle1.is_fixed then s.particle1
    else { s.particle1 with
            position := s.particle1.position +
              (s.particle1.velocity * s.dt + (0.5 : ℝ) * old_accel1 * s.dt ^ 2) }
  let p2 :=
    if s.particle2.is_fixed then s.particle2
    else { s.particle2 with
            position := s.particle2.position +
              (s.particle2.velocity * s.dt + (0.5 : ℝ) * old_accel2 * s.dt ^ 2) }
  let w1 := _handle_wall_collisions s.box_size p1 s.wall_collision_count_1
  let w2 := _handle_wall_collisions s.box_size p2 s.wall_collision_count_2
  let s3 := _calculate_forces
    { s with
      particle1 := w1.1
      particle2 := w2.1
      wall_collision_count_1 := w1.2
      wall_collision_count_2 := w2.2 }
  let new_accel1 := s3.particle1.force / s3.particle1.mass
  let new_accel2 := s3.particle2.force / s3.particle2.mass
  let q1 :=
    if s3.particle1.is_fixed then s3.particle1
    else { s3.particle1 with
            velocity := s3.particle1.velocity +
              (0.5 : ℝ) * (old_accel1 + new_accel1) * s.dt }
  let q2 :=
    if s3.particle2.is_fixed then s3.particle2
    else { s3.particle2 with
            velocity := s3.particle2.velocity +
              (0.5 : ℝ) * (old_accel2 + new_accel2) * s.dt }
  { s3 with particle1 := q1, particle2 := q2, time := s3.time + s.dt }

/-- Method `TwoParticleMD.get_energies`: kinetic energy of both particles,
potential energy at the current inter-particle distance, and their sum
(the sum taken in `EReal`, since the potential may be `np.inf`). -/
def get_energies (s : TwoParticleMD) : ℝ × EReal × EReal :=
  let ke := s.particle1.kinetic_energy + s.particle2.kinetic_energy
  let r := Vec2.norm (s.particle1.position - s.particle2.position)
  let pe := s.potential.potential r
  (ke, pe, (ke : EReal) + pe)

/-- The snapshot `TwoParticleMD._record_state` appends: current time,
value copies of both positions and velocities, the current energies and
the current collision counts. -/
def currentSnapshot (s : TwoParticleMD) : Snapshot :=
  { time := s.time
    pos1 := s.particle1.position
    pos2 := s.particle2.position
    vel1 := s.particle1.velocity
    vel2 := s.particle2.velocity
    kinetic := s.get_energies.1
    potentialEnergy := s.get_energies.2.1
    total := s.get_energies.2.2
    wall_collisions_1 := s.wall_collision_count_1
    wall_collisions_2 := s.wall_collision_count_2 }

/-- Method `TwoParticleMD._record_state`: appends the current snapshot to the
history. -/
def _record_state (s : TwoParticleMD) : TwoParticleMD :=
  { s with history := s.history ++ [s.currentSnapshot] }

/-- The main loop of `TwoParticleMD.run`: `i` is the number of steps
already completed, `n` the number still to run.  After each `step()`,
the state is recorded when `(i + 1) % record_interval == 0`. -/
def runLoop (record_interval : ℕ) : ℕ → ℕ → TwoParticleMD → TwoParticleMD
  | _, 0, s => s
  | i, n + 1, s =>
    let s1 := s.step
    let s2 := if (i + 1) % record_interval = 0 then s1._record_state else s1
    runLoop record_interval (i + 1) n s2

/-- Method `TwoParticleMD.run(n_steps, record_interval)`: records the initial
state, then runs `n_steps` steps, recording after every
`record_interval`-th completed step.  (Console printing is I/O and is
not modelled.) -/
def run (s : TwoParticleMD) (n_steps : ℕ) (record_interval : ℕ) : TwoParticleMD :=
  runLoop record_interval 0 n_steps s._record_state

/-- Spec-side stage (from the spec sentence "Position update (skipped
entirely if particle is fixed): position += velocity·dt +
0.5·old_acceleration·dt²", with old_acceleration = force/mass from the
stored force). -/
def positionUpdate (dt : ℝ) (p : Particle) : Particle :=
  if p.is_fixed then p
  else { p with
          position := p.position +
            (p.velocity * dt + (0.5 : ℝ) * (p.force / p.mass) * dt ^ 2) }

/-- Spec-side stage (from the spec sentence "Velocity update (skipped if
fixed): velocity += 0.5·(old_acceleration + new_acceleration)·dt", where
the new acceleration is recomputed from the particle's freshly stored
force). -/
def velocityUpdate (dt : ℝ) (old_accel : Vec2) (p : Particle) : Particle :=
  if p.is_fixed then p
  else { p with
          velocity := p.velocity +
            (0.5 : ℝ) * (old_accel + p.force / p.mass) * dt }

/-- Spec-side description of one `step()`: the Velocity Verlet pipeline
written from the spec's own stage list — position update from stored
forces, wall collision handling, force recomputation, velocity update
from averaged accelerations, time increment. -/
def stepSpec (s : TwoParticleMD) : TwoParticleMD :=
  let old_accel1 := s.particle1.force / s.particle1.mass
  let old_accel2 := s.particle2.force / s.particle2.mass
  let s1 := { s with
              particle1 := positionUpdate s.dt s.particle1
              particle2 := positionUpdate s.dt s.particle2 }
  let w1 := _handle_wall_collisions s1.box_size s1.particle1 s1.wall_collision_count_1
  let w2 := _handle_wall_collisions s1.box_size s1.particle2 s1.wall_collision_count_2
  let s2 := { s1 with
              particle1 := w1.1
              particle2 := w2.1
              wall_collision_count_1 := w1.2
              wall_collision_count_2 := w2.2 }
  let s3 := s2._calculate_forces
  { s3 with
    particle1 := velocityUpdate s.dt old_accel1 s3.particle1
    particle2 := velocityUpdate s.dt old_accel2 s3.particle2
    time := s3.time + s.dt }

end TwoParticleMD

/-- A position strictly inside the open box: no wall-collision clamp can
trigger there. -/
def StrictlyInside (box : ℝ × ℝ) (v : Vec2) : Prop :=
  0 < v.x ∧ v.x < box.1 ∧ 0 < v.y ∧ v.y < box.2

/-! ## Basic lemmas about the embedding -/

namespace Vec2

@[simp] theorem add_x (v w : Vec2) : (v + w).x = v.x + w.x := rfl

@[simp] theorem add_y (v w : Vec2) : (v + w).y = v.y + w.y := rfl

@[simp] theorem sub_x (v w : Vec2) : (v - w).x = v.x - w.x := rfl

@[simp] theorem sub_y (v w : Vec2) : (v - w).y = v.y - w.y := rfl

@[simp] theorem neg_x (v : Vec2) : (-v).x = -v.x := rfl

@[simp] theorem neg_y (v : Vec2) : (-v).y = -v.y := rfl

@[simp] theorem mulc_x (v : Vec2) (c : ℝ) : (v * c).x = v.x * c := rfl

@[simp] theorem mulc_y (v : Vec2) (c : ℝ) : (v * c).y = v.y * c := rfl

@[simp] theorem cmul_x (c : ℝ) (v : Vec2) : (c * v).x = c * v.x := rfl

@[simp] theorem cmul_y (c : ℝ) (v : Vec2) : (c * v).y = c * v.y := rfl

@[simp] theorem divc_x (v : Vec2) (c : ℝ) : (v / c).x = v.x / c := rfl

@[simp] theorem divc_y (v : Vec2) (c : ℝ) : (v / c).y = v.y / c := rfl

@[simp] theorem zero_x : (zero).x = 0 := rfl

@[simp] theorem zero_y : (zero).y = 0 := rfl

@[ext] theorem ext {v w : Vec2} (hx : v.x = w.x) (hy : v.y = w.y) : v = w := by
  cases v; cases w; simp_all

@[simp] theorem norm_zero_vec : norm zero = 0 := by
  simp [norm, zero]

end Vec2

namespace TwoParticleMD

/-- The source's `step` is definitionally the spec-side staged pipeline. -/
theorem step_eq_stages (s : TwoParticleMD) : s.step = s.stepSpec := rfl

@[simp] theorem positionUpdate_velocity (dt : ℝ) (p : Particle) :
    (positionUpdate dt p).velocity = p.velocity := by
  unfold positionUpdate; split <;> rfl

@[simp] theorem positionUpdate_mass (dt : ℝ) (p : Particle) :
    (positionUpdate dt p).mass = p.mass := by
  unfold positionUpdate; split <;> rfl

@[simp] theorem positionUpdate_force (dt : ℝ) (p : Particle) :
    (positionUpdate dt p).force = p.force := by
  unfold positionUpdate; split <;> rfl

@[simp] theorem positionUpdate_is_fixed (dt : ℝ) (p : Particle) :
    (positionUpdate dt p).is_fixed = p.is_fixed := by
  unfold positionUpdate; split <;> rfl

theorem positionUpdate_fixed (dt : ℝ) (p : Particle) (h : p.is_fixed = true) :
    positionUpdate dt p = p := by
  unfold positionUpdate; simp [h]

theorem positionUpdate_not_fixed (dt : ℝ) (p : Particle) (h : p.is_fixed = false) :
    (positionUpdate dt p).position =
      p.position + (p.velocity * dt + (0.5 : ℝ) * (p.force / p.mass) * dt ^ 2) := by
  unfold positionUpdate; simp [h]

@[simp] theorem velocityUpdate_position (dt : ℝ) (a : Vec2) (p : Particle) :
    (velocityUpdate dt a p).position = p.position := by
  unfold velocityUpdate; split <;> rfl

@[simp] theorem velocityUpdate_mass (dt : ℝ) (a : Vec2) (p : Particle) :
    (velocityUpdate dt a p).mass = p.mass := by
  unfold velocityUpdate; split <;> rfl

@[simp] theorem velocityUpdate_force (dt : ℝ) (a : Vec2) (p : Particle) :
    (velocityUpdate dt a p).force = p.force := by
  unfold velocityUpdate; split <;> rfl

@[simp] theorem velocityUpdate_is_fixed (dt : ℝ) (a : Vec2) (p : Particle) :
    (velocityUpdate dt a p).is_fixed = p.is_fixed := by
  unfold velocityUpdate; split <;> rfl

theorem velocityUpdate_fixed (dt : ℝ) (a : Vec2) (p : Particle) (h : p.is_fixed = true) :
    velocityUpdate dt a p = p := by
  unfold velocityUpdate; simp [h]

theorem velocityUpdate_not_fixed (dt : ℝ) (a : Vec2) (p : Particle) (h : p.is_fixed = false) :
    (velocityUpdate dt a p).velocity =
      p.velocity + (0.5 : ℝ) * (a + p.force / p.mass) * dt := by
  unfold velocityUpdate; simp [h]

@[simp] theorem handle_wall_is_fixed (box : ℝ × ℝ) (p : Particle) (c : ℕ) :
    (_handle_wall_collisions box p c).1.is_fixed = p.is_fixed := by
  unfold _handle_wall_collisions; split <;> rfl

@[simp] theorem handle_wall_mass (box : ℝ × ℝ) (p : Particle) (c : ℕ) :
    (_handle_wall_collisions box p c).1.mass = p.mass := by
  unfold _handle_wall_collisions; split <;> rfl

@[simp] theorem handle_wall_force (box : ℝ × ℝ) (p : Particle) (c : ℕ) :
    (_handle_wall_collisions box p c).1.force = p.force := by
  unfold _handle_wall_collisions; split <;> rfl

theorem handle_wall_fixed (box : ℝ × ℝ) (p : Particle) (c : ℕ) (h : p.is_fixed = true) :
    _handle_wall_collisions box p c = (p, c) := by
  unfold _handle_wall_collisions; simp [h]

theorem handle_wall_inside (box : ℝ × ℝ) (p : Particle) (c : ℕ)
    (h : StrictlyInside box p.position) :
    _handle_wall_collisions box p c = (p, c) := by
  obtain ⟨hx0, hxw, hy0, hyh⟩ := h
  unfold _handle_wall_collisions
  by_cases hf : p.is_fixed = true
  · rw [if_pos hf]
  · rw [if_neg hf]
    simp only [if_neg (not_le.mpr hx0), if_neg (not_le.mpr hxw),
      if_neg (not_le.mpr hy0), if_neg (not_le.mpr hyh)]
    rfl

end TwoParticleMD

/-- C1: one call to `step()` performs exactly the Velocity Verlet update
described by the spec — position update from the stored forces (skipped
for fixed particles), then wall collision handling, then force
recomputation at the new positions, then velocity update by
`0.5·(old_acceleration + new_acceleration)·dt` (skipped for fixed
particles), then `time += dt`. -/
theorem C1_step_is_velocity_verlet (s : TwoParticleMD) :
    s.step = s.stepSpec ∧ s.step.time = s.time + s.dt :=
  ⟨TwoParticleMD.step_eq_stages s, rfl⟩

/-- C8 counterexample: `Particle.__init__` performs no validation — the
constructor is a total function, and constructing with mass `-1`
succeeds, storing the (non-positive) mass and the input vectors rather
than failing with an `InvalidParameter` error. -/
theorem C8_counterexample_no_mass_validation :
    Particle.init ⟨1, 2⟩ ⟨3, 4⟩ (-1) false =
      { position := ⟨1, 2⟩
        velocity := ⟨3, 4⟩
        mass := -1
        force := Vec2.zero
        is_fixed := false } := rfl

/-- C8 (amended): constructing a `Particle` never fails — for every mass
(positive or not) the constructor succeeds, copies the input position
and velocity vectors, stores the mass and the fixed flag, and
initializes the force to the zero 2-vector. -/
theorem C8_particle_construction (position velocity : Vec2) (mass : ℝ) (b : Bool) :
    (Particle.init position velocity mass b).position = position ∧
    (Particle.init position velocity mass b).velocity = velocity ∧
    (Particle.init position velocity mass b).mass = mass ∧
    (Particle.init position velocity mass b).force = Vec2.zero ∧
    (Particle.init position velocity mass b).is_fixed = b :=
  ⟨rfl, rfl, rfl, rfl, rfl⟩

/-- C2: the wall-collision handler, on a non-fixed particle in a box of
positive width and height, clamps each axis independently (position ≤ 0
↦ position 0 and velocity `|v|`; position ≥ bound ↦ position bound and
velocity `-|v|`; otherwise that axis is untouched), and increments the
collision counter by exactly 1 when at least one bound was hit (a corner
hit counts once) and by 0 otherwise. -/
theorem C2_wall_collision_rule (box : ℝ × ℝ) (p : Particle) (c : ℕ)
    (hw : 0 < box.1) (hh : 0 < box.2) (hfix : p.is_fixed = false) :
    (p.position.x ≤ 0 →
      (TwoParticleMD._handle_wall_collisions box p c).1.position.x = 0 ∧
      (TwoParticleMD._handle_wall_collisions box p c).1.velocity.x = |p.velocity.x|) ∧
    (box.1 ≤ p.position.x →
      (TwoParticleMD._handle_wall_collisions box p c).1.position.x = box.1 ∧
      (TwoParticleMD._handle_wall_collisions box p c).1.velocity.x = -|p.velocity.x|) ∧
    (0 < p.position.x → p.position.x < box.1 →
      (TwoParticleMD._handle_wall_collisions box p c).1.position.x = p.position.x ∧
      (TwoParticleMD._handle_wall_collisions box p c).1.velocity.x = p.velocity.x) ∧
    (p.position.y ≤ 0 →
      (TwoParticleMD._handle_wall_collisions box p c).1.position.y = 0 ∧
      (TwoParticleMD._handle_wall_collisions box p c).1.velocity.y = |p.velocity.y|) ∧
    (box.2 ≤ p.position.y →
      (TwoParticleMD._handle_wall_collisions box p c).1.position.y = box.2 ∧
      (TwoParticleMD._handle_wall_collisions box p c).1.velocity.y = -|p.velocity.y|) ∧
    (0 < p.position.y → p.position.y < box.2 →
      (TwoParticleMD._handle_wall_collisions box p c).1.position.y = p.position.y ∧
      (TwoParticleMD._handle_wall_collisions box p c).1.velocity.y = p.velocity.y) ∧
    ((p.position.x ≤ 0 ∨ box.1 ≤ p.position.x ∨ p.position.y ≤ 0 ∨ box.2 ≤ p.position.y) →
      (TwoParticleMD._handle_wall_collisions box p c).2 = c + 1) ∧
    ((0 < p.position.x ∧ p.position.x < box.1 ∧ 0 < p.position.y ∧ p.position.y < box.2) →
      (TwoParticleMD._handle_wall_collisions box p c).2 = c) := by
  have hfix' : ¬ (p.is_fixed = true) := by simp [hfix]
  unfold TwoParticleMD._handle_wall_collisions
  rw [if_neg hfix']
  refine ⟨fun h => ?_, fun h => ?_, fun h1 h2 => ?_, fun h => ?_, fun h => ?_,
    fun h1 h2 => ?_, fun h => ?_, fun h => ?_⟩
  · simp [if_pos h]
  · have hx : ¬ (p.position.x ≤ 0) := not_le.mpr (lt_of_lt_of_le hw h)
    simp [if_neg hx, if_pos h]
  · simp [if_neg (not_le.mpr h1), if_neg (not_le.mpr h2)]
  · simp [if_pos h]
  · have hy : ¬ (p.position.y ≤ 0) := not_le.mpr (lt_of_lt_of_le hh h)
    simp [if_neg hy, if_pos h]
  · simp [if_neg (not_le.mpr h1), if_neg (not_le.mpr h2)]
  · rcases h with h | h | h | h
    · simp [if_pos h]
    · have hx : ¬ (p.position.x ≤ 0) := not_le.mpr (lt_of_lt_of_le hw h)
      simp [if_neg hx, if_pos h]
    · simp [if_pos h]
    · have hy : ¬ (p.position.y ≤ 0) := not_le.mpr (lt_of_lt_of_le hh h)
      simp [if_neg hy, if_pos h]
  · obtain ⟨h1, h2, h3, h4⟩ := h
    simp [if_neg (not_le.mpr h1), if_neg (not_le.mpr h2),
      if_neg (not_le.mpr h3), if_neg (not_le.mpr h4)]

/-- C2 witness: a corner hit (both the left and the top wall in the same
call) on a concrete particle — both axes are clamped and reflected, and
the counter is incremented exactly once. -/
theorem C2_wall_collision_rule_witness :
    (TwoParticleMD._handle_wall_collisions (10, 10)
      { position := ⟨-1, 11⟩, velocity := ⟨-2, 3⟩, mass := 1,
        force := Vec2.zero, is_fixed := false } 5).1.position.x = 0 ∧
    (TwoParticleMD._handle_wall_collisions (10, 10)
      { position := ⟨-1, 11⟩, velocity := ⟨-2, 3⟩, mass := 1,
        force := Vec2.zero, is_fixed := false } 5).1.velocity.x = |(-2 : ℝ)| ∧
    (TwoParticleMD._handle_wall_collisions (10, 10)
      { position := ⟨-1, 11⟩, velocity := ⟨-2, 3⟩, mass := 1,
        force := Vec2.zero, is_fixed := false } 5).1.position.y = 10 ∧
    (TwoParticleMD._handle_wall_collisions (10, 10)
      { position := ⟨-1, 11⟩, velocity := ⟨-2, 3⟩, mass := 1,
        force := Vec2.zero, is_fixed := false } 5).1.velocity.y = -|(3 : ℝ)| ∧
    (TwoParticleMD._handle_wall_collisions (10, 10)
      { position := ⟨-1, 11⟩, velocity := ⟨-2, 3⟩, mass := 1,
        force := Vec2.zero, is_fixed := false } 5).2 = 5 + 1 := by
  have h := C2_wall_collision_rule (10, 10)
    { position := ⟨-1, 11⟩, velocity := ⟨-2, 3⟩, mass := 1,
      force := Vec2.zero, is_fixed := false } 5
    (by norm_num) (by norm_num) rfl
  exact ⟨(h.1 (by norm_num)).1, (h.1 (by norm_num)).2,
    (h.2.2.2.2.1 (by norm_num)).1, (h.2.2.2.2.1 (by norm_num)).2,
    h.2.2.2.2.2.2.1 (Or.inl (by norm_num))⟩

namespace TwoParticleMD

@[simp] theorem calculate_forces_particle1_position (s : TwoParticleMD) :
    s._calculate_forces.particle1.position = s.particle1.position := rfl

@[simp] theorem calculate_forces_particle2_position (s : TwoParticleMD) :
    s._calculate_forces.particle2.position = s.particle2.position := rfl

@[simp] theorem calculate_forces_particle1_velocity (s : TwoParticleMD) :
    s._calculate_forces.particle1.velocity = s.particle1.velocity := rfl

@[simp] theorem calculate_forces_particle2_velocity (s : TwoParticleMD) :
    s._calculate_forces.particle2.velocity = s.particle2.velocity := rfl

@[simp] theorem calculate_forces_particle1_mass (s : TwoParticleMD) :
    s._calculate_forces.particle1.mass = s.particle1.mass := rfl

@[simp] theorem calculate_forces_particle2_mass (s : TwoParticleMD) :
    s._calculate_forces.particle2.mass = s.particle2.mass := rfl

@[simp] theorem calculate_forces_particle1_is_fixed (s : TwoParticleMD) :
    s._calculate_forces.particle1.is_fixed = s.particle1.is_fixed := rfl

@[simp] theorem calculate_forces_particle2_is_fixed (s : TwoParticleMD) :
    s._calculate_forces.particle2.is_fixed = s.particle2.is_fixed := rfl

@[simp] theorem calculate_forces_particle1_force (s : TwoParticleMD) :
    s._calculate_forces.particle1.force =
      s.potential.force_vector (s.particle1.position - s.particle2.position) := rfl

@[simp] theorem calculate_forces_particle2_force (s : TwoParticleMD) :
    s._calculate_forces.particle2.force =
      -(s.potential.force_vector (s.particle1.position - s.particle2.position)) := rfl

@[simp] theorem step_particle1_is_fixed (s : TwoParticleMD) :
    s.step.particle1.is_fixed = s.particle1.is_fixed := by
  rw [step_eq_stages]; simp [stepSpec]

@[simp] theorem step_particle2_is_fixed (s : TwoParticleMD) :
    s.step.particle2.is_fixed = s.particle2.is_fixed := by
  rw [step_eq_stages]; simp [stepSpec]

theorem step_fixed_particle1 (s : TwoParticleMD) (h : s.particle1.is_fixed = true) :
    s.step.particle1.position = s.particle1.position ∧
    s.step.particle1.velocity = s.particle1.velocity := by
  rw [step_eq_stages]
  constructor <;>
    simp [stepSpec, positionUpdate_fixed, handle_wall_fixed, velocityUpdate_fixed, h]

theorem step_fixed_particle2 (s : TwoParticleMD) (h : s.particle2.is_fixed = true) :
    s.step.particle2.position = s.particle2.position ∧
    s.step.particle2.velocity = s.particle2.velocity := by
  rw [step_eq_stages]
  constructor <;>
    simp [stepSpec, positionUpdate_fixed, handle_wall_fixed, velocityUpdate_fixed, h]

theorem iterate_particle1_is_fixed (s : TwoParticleMD) (n : ℕ) :
    (TwoParticleMD.step^[n] s).particle1.is_fixed = s.particle1.is_fixed := by
  induction n with
  | zero => rfl
  | succ n ih => rw [Function.iterate_succ_apply', step_particle1_is_fixed, ih]

theorem iterate_particle2_is_fixed (s : TwoParticleMD) (n : ℕ) :
    (TwoParticleMD.step^[n] s).particle2.is_fixed = s.particle2.is_fixed := by
  induction n with
  | zero => rfl
  | succ n ih => rw [Function.iterate_succ_apply', step_particle2_is_fixed, ih]

theorem calculate_forces_third_law (s : TwoParticleMD) :
    s._calculate_forces.particle1.force =
      s.potential.force_vector
        (s._calculate_forces.particle1.position - s._calculate_forces.particle2.position) ∧
    s._calculate_forces.particle2.force = -s._calculate_forces.particle1.force :=
  ⟨rfl, rfl⟩

theorem step_third_law (s : TwoParticleMD) :
    s.step.particle1.force =
      s.potential.force_vector (s.step.particle1.position - s.step.particle2.position) ∧
    s.step.particle2.force = -s.step.particle1.force := by
  rw [step_eq_stages]
  constructor <;> simp [stepSpec, _calculate_forces]

@[simp] theorem step_potential (s : TwoParticleMD) : s.step.potential = s.potential := rfl

@[simp] theorem init_potential (p1 p2 : Particle) (pot : LennardJonesPotential)
    (box : ℝ × ℝ) (dt : ℝ) : (init p1 p2 pot box dt).potential = pot := rfl

theorem iterate_step_potential (s : TwoParticleMD) (n : ℕ) :
    (TwoParticleMD.step^[n] s).potential = s.potential := by
  induction n with
  | zero => rfl
  | succ n ih => rw [Function.iterate_succ_apply', step_potential, ih]

end TwoParticleMD

/-- C3: a fixed particle's position and velocity are exactly equal
before and after any number of `step()` calls (the position update, the
wall handling and the velocity update are all skipped for it). -/
theorem C3_fixed_particle_unchanged (s : TwoParticleMD) (n : ℕ) :
    (s.particle1.is_fixed = true →
      (TwoParticleMD.step^[n] s).particle1.position = s.particle1.position ∧
      (TwoParticleMD.step^[n] s).particle1.velocity = s.particle1.velocity) ∧
    (s.particle2.is_fixed = true →
      (TwoParticleMD.step^[n] s).particle2.position = s.particle2.position ∧
      (TwoParticleMD.step^[n] s).particle2.velocity = s.particle2.velocity) := by
  constructor
  · intro h
    induction n with
    | zero => exact ⟨rfl, rfl⟩
    | succ n ih =>
      have hfix : (TwoParticleMD.step^[n] s).particle1.is_fixed = true :=
        (TwoParticleMD.iterate_particle1_is_fixed s n).trans h
      rw [Function.iterate_succ_apply']
      obtain ⟨hp, hv⟩ := TwoParticleMD.step_fixed_particle1 _ hfix
      exact ⟨hp.trans ih.1, hv.trans ih.2⟩
  · intro h
    induction n with
    | zero => exact ⟨rfl, rfl⟩
    | succ n ih =>
      have hfix : (TwoParticleMD.step^[n] s).particle2.is_fixed = true :=
        (TwoParticleMD.iterate_particle2_is_fixed s n).trans h
      rw [Function.iterate_succ_apply']
      obtain ⟨hp, hv⟩ := TwoParticleMD.step_fixed_particle2 _ hfix
      exact ⟨hp.trans ih.1, hv.trans ih.2⟩

/-- C3 witness: a concrete simulation in which both particles are fixed,
run for 3 steps. -/
theorem C3_fixed_particle_unchanged_witness :
    ((TwoParticleMD.step^[3]
        (TwoParticleMD.init (Particle.init ⟨1, 2⟩ ⟨3, 4⟩ 1 true)
          (Particle.init ⟨5, 6⟩ ⟨-1, 0⟩ 2 true) ⟨1, 1⟩ (10, 10) 1)).particle1.position =
      (TwoParticleMD.init (Particle.init ⟨1, 2⟩ ⟨3, 4⟩ 1 true)
        (Particle.init ⟨5, 6⟩ ⟨-1, 0⟩ 2 true) ⟨1, 1⟩ (10, 10) 1).particle1.position ∧
     (TwoParticleMD.step^[3]
        (TwoParticleMD.init (Particle.init ⟨1, 2⟩ ⟨3, 4⟩ 1 true)
          (Particle.init ⟨5, 6⟩ ⟨-1, 0⟩ 2 true) ⟨1, 1⟩ (10, 10) 1)).particle1.velocity =
      (TwoParticleMD.init (Particle.init ⟨1, 2⟩ ⟨3, 4⟩ 1 true)
        (Particle.init ⟨5, 6⟩ ⟨-1, 0⟩ 2 true) ⟨1, 1⟩ (10, 10) 1).particle1.velocity) ∧
    ((TwoParticleMD.step^[3]
        (TwoParticleMD.init (Particle.init ⟨1, 2⟩ ⟨3, 4⟩ 1 true)
          (Particle.init ⟨5, 6⟩ ⟨-1, 0⟩ 2 true) ⟨1, 1⟩ (10, 10) 1)).particle2.position =
      (TwoParticleMD.init (Particle.init ⟨1, 2⟩ ⟨3, 4⟩ 1 true)
        (Particle.init ⟨5, 6⟩ ⟨-1, 0⟩ 2 true) ⟨1, 1⟩ (10, 10) 1).particle2.position ∧
     (TwoParticleMD.step^[3]
        (TwoParticleMD.init (Particle.init ⟨1, 2⟩ ⟨3, 4⟩ 1 true)
          (Particle.init ⟨5, 6⟩ ⟨-1, 0⟩ 2 true) ⟨1, 1⟩ (10, 10) 1)).particle2.velocity =
      (TwoParticleMD.init (Particle.init ⟨1, 2⟩ ⟨3, 4⟩ 1 true)
        (Particle.init ⟨5, 6⟩ ⟨-1, 0⟩ 2 true) ⟨1, 1⟩ (10, 10) 1).particle2.velocity) :=
  ⟨(C3_fixed_particle_unchanged
      (TwoParticleMD.init (Particle.init ⟨1, 2⟩ ⟨3, 4⟩ 1 true)
        (Particle.init ⟨5, 6⟩ ⟨-1, 0⟩ 2 true) ⟨1, 1⟩ (10, 10) 1) 3).1 rfl,
   (C3_fixed_particle_unchanged
      (TwoParticleMD.init (Particle.init ⟨1, 2⟩ ⟨3, 4⟩ 1 true)
        (Particle.init ⟨5, 6⟩ ⟨-1, 0⟩ 2 true) ⟨1, 1⟩ (10, 10) 1) 3).2 rfl⟩

/-- C4: after construction and after every number of steps, particle 1's
stored force equals `potential.force_vector(position1 - position2)` at
the current positions, and particle 2's stored force is its exact
negation. -/
theorem C4_newton_third_law (p1 p2 : Particle) (pot : LennardJonesPotential)
    (box : ℝ × ℝ) (dt : ℝ) (n : ℕ) :
    (TwoParticleMD.step^[n] (TwoParticleMD.init p1 p2 pot box dt)).particle1.force
      = pot.force_vector
          ((TwoParticleMD.step^[n] (TwoParticleMD.init p1 p2 pot box dt)).particle1.position
            - (TwoParticleMD.step^[n] (TwoParticleMD.init p1 p2 pot box dt)).particle2.position) ∧
    (TwoParticleMD.step^[n] (TwoParticleMD.init p1 p2 pot box dt)).particle2.force
      = -(TwoParticleMD.step^[n] (TwoParticleMD.init p1 p2 pot box dt)).particle1.force := by
  cases n with
  | zero => exact ⟨rfl, rfl⟩
  | succ n =>
    rw [Function.iterate_succ_apply']
    have h := TwoParticleMD.step_third_law
      (TwoParticleMD.step^[n] (TwoParticleMD.init p1 p2 pot box dt))
    rwa [TwoParticleMD.iterate_step_potential, TwoParticleMD.init_potential] at h

namespace TwoParticleMD

theorem handle_wall_in_box (box : ℝ × ℝ) (p : Particle) (c : ℕ)
    (hfix : p.is_fixed = false) (hw : 0 ≤ box.1) (hh : 0 ≤ box.2) :
    0 ≤ (_handle_wall_collisions box p c).1.position.x ∧
    (_handle_wall_collisions box p c).1.position.x ≤ box.1 ∧
    0 ≤ (_handle_wall_collisions box p c).1.position.y ∧
    (_handle_wall_collisions box p c).1.position.y ≤ box.2 := by
  have hfix' : ¬ (p.is_fixed = true) := by simp [hfix]
  unfold _handle_wall_collisions
  rw [if_neg hfix']
  by_cases h1 : p.position.x ≤ 0 <;> by_cases h2 : p.position.x ≥ box.1 <;>
    by_cases h3 : p.position.y ≤ 0 <;> by_cases h4 : p.position.y ≥ box.2 <;>
      simp [h1, h2, h3, h4] <;> (repeat' apply And.intro) <;> linarith

theorem step_particle1_position (s : TwoParticleMD) :
    s.step.particle1.position =
      (_handle_wall_collisions s.box_size (positionUpdate s.dt s.particle1)
        s.wall_collision_count_1).1.position := by
  rw [step_eq_stages]; simp [stepSpec]

theorem step_particle2_position (s : TwoParticleMD) :
    s.step.particle2.position =
      (_handle_wall_collisions s.box_size (positionUpdate s.dt s.particle2)
        s.wall_collision_count_2).1.position := by
  rw [step_eq_stages]; simp [stepSpec]

end TwoParticleMD

/-- C10: with non-negative box dimensions, after a `step()` each
non-fixed particle's position lies within `[0, width] × [0, height]` —
the wall handler clamps both axes unconditionally and no later stage of
`step()` changes positions. -/
theorem C10_positions_clamped (s : TwoParticleMD)
    (hw : 0 ≤ s.box_size.1) (hh : 0 ≤ s.box_size.2) :
    (s.particle1.is_fixed = false →
      0 ≤ s.step.particle1.position.x ∧ s.step.particle1.position.x ≤ s.box_size.1 ∧
      0 ≤ s.step.particle1.position.y ∧ s.step.particle1.position.y ≤ s.box_size.2) ∧
    (s.particle2.is_fixed = false →
      0 ≤ s.step.particle2.position.x ∧ s.step.particle2.position.x ≤ s.box_size.1 ∧
      0 ≤ s.step.particle2.position.y ∧ s.step.particle2.position.y ≤ s.box_size.2) := by
  constructor
  · intro h
    rw [TwoParticleMD.step_particle1_position]
    exact TwoParticleMD.handle_wall_in_box _ _ _ (by simp [h]) hw hh
  · intro h
    rw [TwoParticleMD.step_particle2_position]
    exact TwoParticleMD.handle_wall_in_box _ _ _ (by simp [h]) hw hh

/-- C10 witness: a concrete non-fixed particle thrown far past the right
wall in one step is still inside the box afterwards. -/
theorem C10_positions_clamped_witness :
    (0 ≤ (TwoParticleMD.init (Particle.init ⟨5, 5⟩ ⟨100, 0⟩ 1 false)
        (Particle.init ⟨2, 2⟩ ⟨0, -100⟩ 1 false) ⟨1, 1⟩ (10, 10) 1).step.particle1.position.x ∧
     (TwoParticleMD.init (Particle.init ⟨5, 5⟩ ⟨100, 0⟩ 1 false)
        (Particle.init ⟨2, 2⟩ ⟨0, -100⟩ 1 false) ⟨1, 1⟩ (10, 10) 1).step.particle1.position.x ≤
       (TwoParticleMD.init (Particle.init ⟨5, 5⟩ ⟨100, 0⟩ 1 false)
        (Particle.init ⟨2, 2⟩ ⟨0, -100⟩ 1 false) ⟨1, 1⟩ (10, 10) 1).box_size.1 ∧
     0 ≤ (TwoParticleMD.init (Particle.init ⟨5, 5⟩ ⟨100, 0⟩ 1 false)
        (Particle.init ⟨2, 2⟩ ⟨0, -100⟩ 1 false) ⟨1, 1⟩ (10, 10) 1).step.particle1.position.y ∧
     (TwoParticleMD.init (Particle.init ⟨5, 5⟩ ⟨100, 0⟩ 1 false)
        (Particle.init ⟨2, 2⟩ ⟨0, -100⟩ 1 false) ⟨1, 1⟩ (10, 10) 1).step.particle1.position.y ≤
       (TwoParticleMD.init (Particle.init ⟨5, 5⟩ ⟨100, 0⟩ 1 false)
        (Particle.init ⟨2, 2⟩ ⟨0, -100⟩ 1 false) ⟨1, 1⟩ (10, 10) 1).box_size.2) ∧
    (0 ≤ (TwoParticleMD.init (Particle.init ⟨5, 5⟩ ⟨100, 0⟩ 1 false)
        (Particle.init ⟨2, 2⟩ ⟨0, -100⟩ 1 false) ⟨1, 1⟩ (10, 10) 1).step.particle2.position.x ∧
     (TwoParticleMD.init (Particle.init ⟨5, 5⟩ ⟨100, 0⟩ 1 false)
        (Particle.init ⟨2, 2⟩ ⟨0, -100⟩ 1 false) ⟨1, 1⟩ (10, 10) 1).step.particle2.position.x ≤
       (TwoParticleMD.init (Particle.init ⟨5, 5⟩ ⟨100, 0⟩ 1 false)
        (Particle.init ⟨2, 2⟩ ⟨0, -100⟩ 1 false) ⟨1, 1⟩ (10, 10) 1).box_size.1 ∧
     0 ≤ (TwoParticleMD.init (Particle.init ⟨5, 5⟩ ⟨100, 0⟩ 1 false)
        (Particle.init ⟨2, 2⟩ ⟨0, -100⟩ 1 false) ⟨1, 1⟩ (10, 10) 1).step.particle2.position.y ∧
     (TwoParticleMD.init (Particle.init ⟨5, 5⟩ ⟨100, 0⟩ 1 false)
        (Particle.init ⟨2, 2⟩ ⟨0, -100⟩ 1 false) ⟨1, 1⟩ (10, 10) 1).step.particle2.position.y ≤
       (TwoParticleMD.init (Particle.init ⟨5, 5⟩ ⟨100, 0⟩ 1 false)
        (Particle.init ⟨2, 2⟩ ⟨0, -100⟩ 1 false) ⟨1, 1⟩ (10, 10) 1).box_size.2) :=
  ⟨(C10_positions_clamped
      (TwoParticleMD.init (Particle.init ⟨5, 5⟩ ⟨100, 0⟩ 1 false)
        (Particle.init ⟨2, 2⟩ ⟨0, -100⟩ 1 false) ⟨1, 1⟩ (10, 10) 1)
      (by show (0 : ℝ) ≤ 10; norm_num) (by show (0 : ℝ) ≤ 10; norm_num)).1 rfl,
   (C10_positions_clamped
      (TwoParticleMD.init (Particle.init ⟨5, 5⟩ ⟨100, 0⟩ 1 false)
        (Particle.init ⟨2, 2⟩ ⟨0, -100⟩ 1 false) ⟨1, 1⟩ (10, 10) 1)
      (by show (0 : ℝ) ≤ 10; norm_num) (by show (0 : ℝ) ≤ 10; norm_num)).2 rfl⟩

namespace TwoParticleMD

@[simp] theorem step_history (s : TwoParticleMD) : s.step.history = s.history := rfl

@[simp] theorem record_state_history (s : TwoParticleMD) :
    s._record_state.history = s.history ++ [s.currentSnapshot] := rfl

theorem runLoop_succ (ri i n : ℕ) (s : TwoParticleMD) :
    runLoop ri i (n + 1) s =
      runLoop ri (i + 1) n
        (if (i + 1) % ri = 0 then s.step._record_state else s.step) := rfl

theorem runLoop_history_length (ri n : ℕ) : ∀ (i : ℕ) (s : TwoParticleMD),
    ((runLoop ri i n s).history).length
      = s.history.length + ((i + n) / ri - i / ri) := by
  induction n with
  | zero => intro i s; simp [runLoop]
  | succ n ih =>
    intro i s
    rw [runLoop_succ, ih (i + 1)]
    have hd : (i + 1) / ri = i / ri + if ri ∣ i + 1 then 1 else 0 := Nat.succ_div i ri
    have hm1 : i / ri ≤ (i + 1) / ri := Nat.div_le_div_right (Nat.le_succ i)
    have hm2 : (i + 1) / ri ≤ (i + 1 + n) / ri := Nat.div_le_div_right (by omega)
    have hia : i + (n + 1) = i + 1 + n := by omega
    rw [hia]
    by_cases h : (i + 1) % ri = 0
    · have hdvd : ri ∣ i + 1 := Nat.dvd_of_mod_eq_zero h
      rw [if_pos h, if_pos hdvd] at *
      simp only [record_state_history, step_history, List.length_append,
        List.length_singleton]
      omega
    · have hdvd : ¬ ri ∣ i + 1 := by
        intro hc
        exact h (Nat.eq_zero_of_dvd_of_lt hc |> fun _ => by omega)
      rw [if_neg h, if_neg hdvd] at *
      simp only [step_history]
      omega

theorem runLoop_history_append (ri n : ℕ) : ∀ (i : ℕ) (s : TwoParticleMD),
    ∃ l, (runLoop ri i n s).history = s.history ++ l := by
  induction n with
  | zero => intro i s; exact ⟨[], by simp [runLoop]⟩
  | succ n ih =>
    intro i s
    rw [runLoop_succ]
    by_cases h : (i + 1) % ri = 0
    · rw [if_pos h]
      obtain ⟨l, hl⟩ := ih (i + 1) s.step._record_state
      exact ⟨[s.step.currentSnapshot] ++ l, by
        rw [hl]; simp [List.append_assoc]⟩
    · rw [if_neg h]
      obtain ⟨l, hl⟩ := ih (i + 1) s.step
      exact ⟨l, by rw [hl]; simp⟩

end TwoParticleMD

/-- C7: starting from an empty history, `run(n_steps, record_interval)`
records the initial state as the first entry and then appends one entry
after every `record_interval`-th completed step, producing exactly
`1 + n_steps / record_interval` entries. -/
theorem C7_run_history (s : TwoParticleMD) (n ri : ℕ)
    ( _hri : 1 ≤ ri) (hs : s.history = []) :
    (s.run n ri).history.length = 1 + n / ri ∧
    (s.run n ri).history.head? = some s.currentSnapshot := by
  constructor
  · unfold TwoParticleMD.run
    rw [TwoParticleMD.runLoop_history_length]
    simp [hs, Nat.zero_div]
  · unfold TwoParticleMD.run
    obtain ⟨l, hl⟩ := TwoParticleMD.runLoop_history_append ri n 0 s._record_state
    rw [hl]
    simp [hs]

/-- C7 witness: `run(100, 10)` and `run(50, 5)` on a concrete fresh
simulation each produce `1 + 100/10 = 1 + 50/5 = 11` history entries. -/
theorem C7_run_history_witness :
    ((TwoParticleMD.init (Particle.init ⟨1, 1⟩ ⟨0, 0⟩ 1 false)
        (Particle.init ⟨5, 5⟩ ⟨0, 0⟩ 1 false) ⟨1, 1⟩ (10, 10) 1).run 100 10).history.length
      = 1 + 100 / 10 ∧
    ((TwoParticleMD.init (Particle.init ⟨1, 1⟩ ⟨0, 0⟩ 1 false)
        (Particle.init ⟨5, 5⟩ ⟨0, 0⟩ 1 false) ⟨1, 1⟩ (10, 10) 1).run 50 5).history.length
      = 1 + 50 / 5 :=
  ⟨(C7_run_history (TwoParticleMD.init (Particle.init ⟨1, 1⟩ ⟨0, 0⟩ 1 false)
      (Particle.init ⟨5, 5⟩ ⟨0, 0⟩ 1 false) ⟨1, 1⟩ (10, 10) 1) 100 10
      (by norm_num) rfl).1,
   (C7_run_history (TwoParticleMD.init (Particle.init ⟨1, 1⟩ ⟨0, 0⟩ 1 false)
      (Particle.init ⟨5, 5⟩ ⟨0, 0⟩ 1 false) ⟨1, 1⟩ (10, 10) 1) 50 5
      (by norm_num) rfl).1⟩

/-- C9: in a `step()` in which neither particle is fixed, the stored
forces obey Newton's third law (as in every reachable state), the masses
are nonzero, and no wall-collision clamp triggers for either particle
(both stage-1 positions are strictly inside the box), the total momentum
`m1·v1 + m2·v2` is exactly preserved: the two velocity increments use
exactly opposite forces at both the old and the new positions. -/
theorem C9_momentum_conservation (s : TwoParticleMD)
    (hf1 : s.particle1.is_fixed = false) (hf2 : s.particle2.is_fixed = false)
    (hm1 : s.particle1.mass ≠ 0) (hm2 : s.particle2.mass ≠ 0)
    (hN3 : s.particle2.force = -s.particle1.force)
    (h1 : StrictlyInside s.box_size (TwoParticleMD.positionUpdate s.dt s.particle1).position)
    (h2 : StrictlyInside s.box_size (TwoParticleMD.positionUpdate s.dt s.particle2).position) :
    s.step.particle1.mass * s.step.particle1.velocity
      + s.step.particle2.mass * s.step.particle2.velocity
    = s.particle1.mass * s.particle1.velocity
      + s.particle2.mass * s.particle2.velocity := by
  rw [TwoParticleMD.step_eq_stages]
  simp only [TwoParticleMD.stepSpec]
  rw [TwoParticleMD.handle_wall_inside _ _ _ h1, TwoParticleMD.handle_wall_inside _ _ _ h2]
  simp only [TwoParticleMD.velocityUpdate_mass]
  rw [TwoParticleMD.velocityUpdate_not_fixed _ _ _ (by simp [hf1]),
    TwoParticleMD.velocityUpdate_not_fixed _ _ _ (by simp [hf2])]
  simp only [TwoParticleMD.calculate_forces_particle1_force,
    TwoParticleMD.calculate_forces_particle2_force,
    TwoParticleMD.calculate_forces_particle1_mass,
    TwoParticleMD.calculate_forces_particle2_mass,
    TwoParticleMD.calculate_forces_particle1_velocity,
    TwoParticleMD.calculate_forces_particle2_velocity,
    TwoParticleMD.positionUpdate_mass, TwoParticleMD.positionUpdate_velocity,
    TwoParticleMD.positionUpdate_force]
  rw [hN3]
  ext <;> simp <;> field_simp <;> ring

/-- C9 witness: a concrete step with both particles at rest, strictly
inside the box, with the stored forces as computed at construction. -/
theorem C9_momentum_conservation_witness :
    (TwoParticleMD.init (Particle.init ⟨1, 1⟩ ⟨0, 0⟩ 1 false)
        (Particle.init ⟨3, 3⟩ ⟨0, 0⟩ 1 false) ⟨1, 1⟩ (10, 10) 0).step.particle1.mass *
      (TwoParticleMD.init (Particle.init ⟨1, 1⟩ ⟨0, 0⟩ 1 false)
        (Particle.init ⟨3, 3⟩ ⟨0, 0⟩ 1 false) ⟨1, 1⟩ (10, 10) 0).step.particle1.velocity
    + (TwoParticleMD.init (Particle.init ⟨1, 1⟩ ⟨0, 0⟩ 1 false)
        (Particle.init ⟨3, 3⟩ ⟨0, 0⟩ 1 false) ⟨1, 1⟩ (10, 10) 0).step.particle2.mass *
      (TwoParticleMD.init (Particle.init ⟨1, 1⟩ ⟨0, 0⟩ 1 false)
        (Particle.init ⟨3, 3⟩ ⟨0, 0⟩ 1 false) ⟨1, 1⟩ (10, 10) 0).step.particle2.velocity
    = (TwoParticleMD.init (Particle.init ⟨1, 1⟩ ⟨0, 0⟩ 1 false)
        (Particle.init ⟨3, 3⟩ ⟨0, 0⟩ 1 false) ⟨1, 1⟩ (10, 10) 0).particle1.mass *
      (TwoParticleMD.init (Particle.init ⟨1, 1⟩ ⟨0, 0⟩ 1 false)
        (Particle.init ⟨3, 3⟩ ⟨0, 0⟩ 1 false) ⟨1, 1⟩ (10, 10) 0).particle1.velocity
    + (TwoParticleMD.init (Particle.init ⟨1, 1⟩ ⟨0, 0⟩ 1 false)
        (Particle.init ⟨3, 3⟩ ⟨0, 0⟩ 1 false) ⟨1, 1⟩ (10, 10) 0).particle2.mass *
      (TwoParticleMD.init (Particle.init ⟨1, 1⟩ ⟨0, 0⟩ 1 false)
        (Particle.init ⟨3, 3⟩ ⟨0, 0⟩ 1 false) ⟨1, 1⟩ (10, 10) 0).particle2.velocity :=
  C9_momentum_conservation _ rfl rfl
    (by show (1 : ℝ) ≠ 0; norm_num) (by show (1 : ℝ) ≠ 0; norm_num)
    rfl
    (by
      simp [StrictlyInside, TwoParticleMD.positionUpdate, TwoParticleMD.init,
        TwoParticleMD._calculate_forces, Particle.init])
    (by
      simp [StrictlyInside, TwoParticleMD.positionUpdate, TwoParticleMD.init,
        TwoParticleMD._calculate_forces, Particle.init]
      norm_num)

/-- C5: shape of the Lennard-Jones curve for `epsilon > 0` and `sigma`
at or above the degenerate-distance threshold: `potential(sigma) = 0`,
`potential(2^(1/6)·sigma) = -epsilon`,
`force_magnitude(2^(1/6)·sigma) = 0`, `potential(r) > 0` for
`1e-10 ≤ r < sigma`, and `potential(r) < 0` for `r > sigma`. -/
theorem C5_lj_shape (lj : LennardJonesPotential)
    (hε : 0 < lj.epsilon) (hσ : 1e-10 ≤ lj.sigma) :
    lj.potential lj.sigma = ((0 : ℝ) : EReal) ∧
    lj.potential ((2 : ℝ) ^ ((1 : ℝ) / 6) * lj.sigma) = ((-lj.epsilon : ℝ) : EReal) ∧
    lj.force_magnitude ((2 : ℝ) ^ ((1 : ℝ) / 6) * lj.sigma) = 0 ∧
    (∀ r : ℝ, 1e-10 ≤ r → r < lj.sigma → ((0 : ℝ) : EReal) < lj.potential r) ∧
    (∀ r : ℝ, lj.sigma < r → lj.potential r < ((0 : ℝ) : EReal)) := by
  have hthr : (0 : ℝ) < 1e-10 := by norm_num
  have hσ0 : (0 : ℝ) < lj.sigma := lt_of_lt_of_le hthr hσ
  have hc0 : (0 : ℝ) < (2 : ℝ) ^ ((1 : ℝ) / 6) := Real.rpow_pos_of_pos two_pos _
  have hc6 : ((2 : ℝ) ^ ((1 : ℝ) / 6)) ^ (6 : ℕ) = 2 := by
    rw [← Real.rpow_natCast ((2 : ℝ) ^ ((1 : ℝ) / 6)) 6,
      ← Real.rpow_mul (by norm_num : (0 : ℝ) ≤ 2)]
    norm_num
  have hc1 : 1 ≤ (2 : ℝ) ^ ((1 : ℝ) / 6) := by
    by_contra hlt
    push_neg at hlt
    have h2 : ((2 : ℝ) ^ ((1 : ℝ) / 6)) ^ (6 : ℕ) < 1 :=
      pow_lt_one₀ hc0.le hlt (by norm_num)
    rw [hc6] at h2
    norm_num at h2
  have hrthr : ¬ ((2 : ℝ) ^ ((1 : ℝ) / 6) * lj.sigma < 1e-10) :=
    not_lt.mpr (le_trans hσ (le_mul_of_one_le_left hσ0.le hc1))
  have hinv : lj.sigma / ((2 : ℝ) ^ ((1 : ℝ) / 6) * lj.sigma)
      = ((2 : ℝ) ^ ((1 : ℝ) / 6))⁻¹ := by
    rw [mul_comm, div_mul_eq_div_div, div_self hσ0.ne', one_div]
  refine ⟨?_, ?_, ?_, ?_, ?_⟩
  · unfold LennardJonesPotential.potential
    rw [if_neg (not_lt.mpr hσ), div_self hσ0.ne', EReal.coe_eq_coe_iff]
    norm_num
  · unfold LennardJonesPotential.potential
    rw [if_neg hrthr, hinv, inv_pow, hc6, EReal.coe_eq_coe_iff]
    ring
  · unfold LennardJonesPotential.force_magnitude
    rw [if_neg hrthr, hinv, inv_pow, hc6]
    norm_num
  · intro r hr1 hr2
    have hr0 : (0 : ℝ) < r := lt_of_lt_of_le hthr hr1
    have hd : 1 < lj.sigma / r := (one_lt_div hr0).mpr hr2
    have h6 : 1 < (lj.sigma / r) ^ (6 : ℕ) := one_lt_pow₀ hd (by norm_num)
    unfold LennardJonesPotential.potential
    rw [if_neg (not_lt.mpr hr1), show ((0 : ℝ) : EReal) = ((0 : ℝ) : EReal) from rfl,
      EReal.coe_lt_coe_iff]
    have hkey : 0 < lj.epsilon * ((lj.sigma / r) ^ (6 : ℕ)) * ((lj.sigma / r) ^ (6 : ℕ) - 1) :=
      mul_pos (mul_pos hε (lt_trans zero_lt_one h6)) (by linarith)
    nlinarith [hkey]
  · intro r hr2
    have hr1 : (1e-10 : ℝ) ≤ r := le_trans hσ hr2.le
    have hr0 : (0 : ℝ) < r := lt_of_lt_of_le hthr hr1
    have hd0 : 0 < lj.sigma / r := div_pos hσ0 hr0
    have hd1 : lj.sigma / r < 1 := (div_lt_one hr0).mpr hr2
    have h6a : 0 < (lj.sigma / r) ^ (6 : ℕ) := pow_pos hd0 6
    have h6b : (lj.sigma / r) ^ (6 : ℕ) < 1 := pow_lt_one₀ hd0.le hd1 (by norm_num)
    unfold LennardJonesPotential.potential
    rw [if_neg (not_lt.mpr hr1), EReal.coe_lt_coe_iff]
    have hkey : 0 < lj.epsilon * ((lj.sigma / r) ^ (6 : ℕ)) * (1 - (lj.sigma / r) ^ (6 : ℕ)) :=
      mul_pos (mul_pos hε h6a) (by linarith)
    nlinarith [hkey]

/-- C5 witness: the unit Lennard-Jones potential (`epsilon = sigma = 1`)
evaluated at the zero crossing, the equilibrium distance, a repulsive
distance `r = 0.5` and an attractive distance `r = 2`. -/
theorem C5_lj_shape_witness :
    LennardJonesPotential.potential ⟨1, 1⟩ 1 = ((0 : ℝ) : EReal) ∧
    LennardJonesPotential.potential ⟨1, 1⟩ ((2 : ℝ) ^ ((1 : ℝ) / 6) * 1)
      = ((-(1 : ℝ) : ℝ) : EReal) ∧
    LennardJonesPotential.force_magnitude ⟨1, 1⟩ ((2 : ℝ) ^ ((1 : ℝ) / 6) * 1) = 0 ∧
    ((0 : ℝ) : EReal) < LennardJonesPotential.potential ⟨1, 1⟩ 0.5 ∧
    LennardJonesPotential.potential ⟨1, 1⟩ 2 < ((0 : ℝ) : EReal) := by
  have h := C5_lj_shape ⟨1, 1⟩ (by norm_num) (by norm_num)
  exact ⟨h.1, h.2.1, h.2.2.1, h.2.2.2.1 0.5 (by norm_num) (by norm_num),
    h.2.2.2.2 2 (by norm_num)⟩

/-- C6: at degenerate distance (`r < 1e-10`) the potential returns
positive infinity, the force magnitude returns 0, and for a displacement
of magnitude `< 1e-10` the force vector returns the zero 2-vector; all
three operations are total (no error is raised). -/
theorem C6_degenerate_distance (lj : LennardJonesPotential) :
    (∀ r : ℝ, r < 1e-10 → lj.potential r = ⊤ ∧ lj.force_magnitude r = 0) ∧
    (∀ r_vector : Vec2, Vec2.norm r_vector < 1e-10 →
      lj.force_vector r_vector = Vec2.zero) := by
  refine ⟨fun r hr => ⟨?_, ?_⟩, fun rv hrv => ?_⟩
  · unfold LennardJonesPotential.potential
    rw [if_pos hr]
  · unfold LennardJonesPotential.force_magnitude
    rw [if_pos hr]
  · unfold LennardJonesPotential.force_vector
    rw [if_pos hrv]

/-- C6 witness: the degenerate behaviors at `r = 0` and the zero
displacement. -/
theorem C6_degenerate_distance_witness :
    (LennardJonesPotential.potential ⟨1, 1⟩ 0 = ⊤ ∧
     LennardJonesPotential.force_magnitude ⟨1, 1⟩ 0 = 0) ∧
    LennardJonesPotential.force_vector ⟨1, 1⟩ ⟨0, 0⟩ = Vec2.zero :=
  ⟨(C6_degenerate_distance ⟨1, 1⟩).1 0 (by norm_num),
   (C6_degenerate_distance ⟨1, 1⟩).2 ⟨0, 0⟩ (by
      rw [show Vec2.norm ⟨0, 0⟩ = 0 by simp [Vec2.norm]]
      norm_num)⟩

end
